import Mathlib

/-!
Verification of the Yarson portfolio navigation subsystem.

The embedding follows the TypeScript sources:
* `src/app/types/schemas.ts` — zod schemas for links, the navigation config
  and the copyright info;
* `app/lib/constants.ts` — the `NAV_LINKS` catalog, its module-load-time
  schema parse, `COPYRIGHT_OWNER`, `getCopyrightInfo`, `getCopyrightText`;
* `app/components/Navigation.tsx` — the navigation widget: sorting, the two
  renderings (desktop inline list and mobile drawer), the mobile-menu state
  and its document-level `mousedown`/`keydown` listeners managed by a React
  effect keyed on `isMobileMenuOpen`;
* `app/components/Header.tsx` / `Footer.tsx` — the header passes
  `NAV_LINKS.links` to the widget; the footer independently sorts
  `NAV_LINKS.links` and renders `getCopyrightText()`.
-/

namespace Yarson

/-- The `action` field of a navigation link: zod
`z.enum(['navigate', 'scroll-to-top', 'placeholder'])` from `schemas.ts`. -/
inductive LinkAction where
  | navigate
  | scrollToTop
  | placeholder
deriving DecidableEq, Repr

/-- One navigation entry, the shape described by `NavigationLinkSchema`
(`schemas.ts`).  `order` is a JS number; the schema separately requires it to
be a non-negative integer, so it is carried here as `Int` with the
non-negativity check kept in the validity predicate. -/
structure NavigationLink where
  id : String
  label : String
  href : String
  action : LinkAction
  order : Int
deriving DecidableEq, Repr

/-- The navigation configuration object validated by
`NavigationConfigSchema` (`schemas.ts`). -/
structure NavigationConfig where
  links : List NavigationLink
deriving DecidableEq, Repr

/-- zod `z.string().min(1)`. -/
def strNonempty (s : String) : Bool :=
  decide (1 ≤ s.length)

/-- `val.startsWith c` for a one-character prefix, as used by the href
refinement in `NavigationLinkSchema` (`'#'` and `'/'`). -/
def startsWithChar (s : String) (c : Char) : Bool :=
  match s.data with
  | [] => false
  | c0 :: _ => c0 == c

/-- Helper for `isAbsoluteUrl`: the character list contains a `"://"` scheme
separator. -/
def hasSchemeSep : List Char → Bool
  | ':' :: '/' :: '/' :: _ => true
  | _ :: rest => hasSchemeSep rest
  | [] => false

/-- Conservative model of zod's `z.string().url().safeParse(val).success`
(a WHATWG-URL parse succeeding): the string carries a scheme separator.
Every href in this repository starts with `'/'` or `'#'`, so no theorem
below depends on this branch. -/
def isAbsoluteUrl (s : String) : Bool :=
  hasSchemeSep s.data

/-- The href rule of `NavigationLinkSchema`: non-empty, and an anchor
(`'#'`-prefixed), a path (`'/'`-prefixed) or an absolute URL. -/
def hrefValid (s : String) : Bool :=
  strNonempty s && (startsWithChar s '#' || startsWithChar s '/' || isAbsoluteUrl s)

/-- `NavigationLinkSchema` (`schemas.ts`): non-empty id, non-empty label,
valid href, action in the enum (enforced here by the `LinkAction` type) and a
non-negative integer order. -/
def navigationLinkValid (l : NavigationLink) : Bool :=
  strNonempty l.id && strNonempty l.label && hrefValid l.href && decide (0 ≤ l.order)

/-- The id-uniqueness refinement of `NavigationConfigSchema`:
`new Set(ids).size === ids.length`. -/
def idsUnique (links : List NavigationLink) : Bool :=
  decide ((links.map NavigationLink.id).dedup.length = (links.map NavigationLink.id).length)

/-- The order-uniqueness refinement of `NavigationConfigSchema`:
`new Set(orders).size === orders.length`. -/
def ordersUnique (links : List NavigationLink) : Bool :=
  decide ((links.map NavigationLink.order).dedup.length = (links.map NavigationLink.order).length)

/-- Success of `NavigationConfigSchema.parse` (`schemas.ts`): every element
passes `NavigationLinkSchema`, the array has `.min(1)` length, and the two
uniqueness refinements hold.  `parse` throws exactly when this is `false`. -/
def navigationConfigParse (cfg : NavigationConfig) : Bool :=
  cfg.links.all navigationLinkValid && decide (1 ≤ cfg.links.length) &&
    idsUnique cfg.links && ordersUnique cfg.links

/-- The `NAV_LINKS` catalog from `app/lib/constants.ts`, parsed against
`NavigationConfigSchema` at module load time. -/
def NAV_LINKS : NavigationConfig :=
  { links :=
      [ { id := "home", label := "Home", href := "/", action := .scrollToTop, order := 0 }
      , { id := "work", label := "Work", href := "#", action := .placeholder, order := 1 }
      , { id := "about", label := "About", href := "#", action := .placeholder, order := 2 }
      , { id := "contact", label := "Contact", href := "#", action := .placeholder, order := 3 } ] }

/-- The module-load-time `NavigationConfigSchema.parse(NAV_LINKS)` in
`constants.ts` succeeds on the shipped catalog. -/
theorem nav_links_parse_ok : navigationConfigParse NAV_LINKS = true := by decide

/-- A dedup keeps the length exactly on duplicate-free lists; this bridges the
source's `Set`-size test with `List.Nodup`. -/
theorem dedup_length_eq_iff_nodup {α : Type} [DecidableEq α] (l : List α) :
    l.dedup.length = l.length ↔ l.Nodup := by
  constructor
  · intro h
    have hsub := List.dedup_sublist l
    have heq := hsub.eq_of_length h
    exact heq ▸ List.nodup_dedup l
  · intro h
    rw [List.dedup_eq_self.mpr h]

/-- C1 (amended): `NavigationConfigSchema.parse` succeeds exactly when every
link individually passes `NavigationLinkSchema` (non-empty id and label,
anchor/path/URL href, non-negative integer order) and the catalog is
non-empty with pairwise-distinct ids and pairwise-distinct orders; it fails
whenever any of the three catalog invariants — or a per-link rule — is
violated. -/
theorem navigationConfigParse_iff (cfg : NavigationConfig) :
    navigationConfigParse cfg = true ↔
      (cfg.links.all navigationLinkValid = true ∧ cfg.links ≠ [] ∧
        (cfg.links.map NavigationLink.id).Nodup ∧
        (cfg.links.map NavigationLink.order).Nodup) := by
  unfold navigationConfigParse idsUnique ordersUnique
  simp only [Bool.and_eq_true, decide_eq_true_eq, dedup_length_eq_iff_nodup]
  rw [show (1 ≤ cfg.links.length ↔ cfg.links ≠ []) by
        simpa using List.length_pos (l := cfg.links)]
  tauto

/-- C1 counterexample: a single-link catalog with an empty label is
non-empty, has distinct ids and distinct orders, yet
`NavigationConfigSchema.parse` rejects it — construction fails even though
the claim's three invariants all hold. -/
theorem navigationConfigParse_claim_counterexample :
    (NavigationConfig.mk [{ id := "home", label := "", href := "/", action := .navigate, order := 0 }]).links ≠ [] ∧
    ((NavigationConfig.mk [{ id := "home", label := "", href := "/", action := .navigate, order := 0 }]).links.map NavigationLink.id).Nodup ∧
    ((NavigationConfig.mk [{ id := "home", label := "", href := "/", action := .navigate, order := 0 }]).links.map NavigationLink.order).Nodup ∧
    navigationConfigParse (NavigationConfig.mk [{ id := "home", label := "", href := "/", action := .navigate, order := 0 }]) = false := by
  decide

/-- The comparator `(a, b) => a.order - b.order` used by both
`Navigation.tsx` and `Footer.tsx`: `a` sorts no later than `b` exactly when
the comparator is non-positive. -/
def linkLE (a b : NavigationLink) : Prop := a.order ≤ b.order

instance : DecidableRel linkLE := fun a b => Int.decLe a.order b.order

instance : IsTotal NavigationLink linkLE := ⟨fun a b => Int.le_total a.order b.order⟩

instance : IsTrans NavigationLink linkLE := ⟨fun _ _ _ h h2 => Int.le_trans h h2⟩

/-- `const sortedLinks = [...links].sort((a, b) => a.order - b.order)`
(`Navigation.tsx` line 12, `Footer.tsx` line 26).  ES2019 `Array.prototype.sort`
is a stable ascending sort for this comparator; a stable sort's output is
uniquely determined by the comparator, so insertion sort (stable, structural,
hence kernel-evaluable) gives the same list. -/
def sortedLinks (links : List NavigationLink) : List NavigationLink :=
  links.insertionSort linkLE

/-- An `<a>`/`<Link>` element as the shipped `Navigation.tsx` and
`Footer.tsx` markup produces it: an href, a visible label, and — decisive for
C2/C3 — the `onClick` prop that the JSX would attach.  The shipped markup
passes only `href`, `className` and the label, never an `onClick`. -/
structure RenderedLink where
  label : String
  href : String
  onClick : Option LinkAction
deriving DecidableEq, Repr

/-- The per-link JSX of `Navigation.tsx` (both the desktop `<li>` at lines
47-56 and the drawer `<li>` at lines 98-107) and of `Footer.tsx`:
`<Link href={link.href} className=...>{link.label}</Link>` with no `onClick`
prop. -/
def renderLink (l : NavigationLink) : RenderedLink :=
  { label := l.label, href := l.href, onClick := none }

/-- The output of one `Navigation` render: the always-present desktop inline
list, the toggle button's `aria-expanded` value, and the drawer list, mounted
only while `isMobileMenuOpen` is true (`AnimatePresence` block). -/
structure NavRender where
  desktopItems : List RenderedLink
  toggleExpanded : Bool
  drawerItems : Option (List RenderedLink)
deriving DecidableEq, Repr

/-- The `Navigation` component's render (`Navigation.tsx`): both lists map
`renderLink` over the one memoized `sortedLinks` value; the drawer subtree
exists only while the menu is open. -/
def renderNavigation (links : List NavigationLink) (isMobileMenuOpen : Bool) : NavRender :=
  { desktopItems := (sortedLinks links).map renderLink
  , toggleExpanded := isMobileMenuOpen
  , drawerItems :=
      if isMobileMenuOpen then some ((sortedLinks links).map renderLink) else none }

/-- The footer's link list (`Footer.tsx`): an independent
`[...NAV_LINKS.links].sort(...)` over the same catalog instance, rendered
with the same handler-free markup. -/
def renderFooterItems : List RenderedLink :=
  (sortedLinks NAV_LINKS.links).map renderLink

/-- Observable result of activating a rendered link: whether the handler (if
any) suppressed default navigation, whether the widget issued a scroll to the
top, whether it requested the drawer to close, and the URL the browser is
left pointing at. -/
structure Activation where
  defaultPrevented : Bool
  scrolledToTop : Bool
  closedMenu : Bool
  urlAfter : String
deriving DecidableEq, Repr

/-- The `handleLinkClick` dispatch that the repository's own component
contract specifies
(`specs/001-portfolio-homepage/contracts/component-contracts.md`):
`scroll-to-top` prevents default and scrolls to offset 0, `placeholder`
prevents default, `navigate` lets the browser follow the href; each branch
closes the mobile menu when it is open.  The shipped `Navigation.tsx`
defines no such handler, so `renderLink` never reaches this branch. -/
def handleLinkClickEffect (a : LinkAction) (currentUrl href : String) : Activation :=
  match a with
  | .scrollToTop => { defaultPrevented := true, scrolledToTop := true, closedMenu := true, urlAfter := currentUrl }
  | .placeholder => { defaultPrevented := true, scrolledToTop := false, closedMenu := true, urlAfter := currentUrl }
  | .navigate => { defaultPrevented := false, scrolledToTop := false, closedMenu := true, urlAfter := href }

/-- Activating a rendered link.  With an attached handler the contract's
dispatch runs; with none — the shipped case — the browser default fires:
nothing is prevented, no script scroll happens, no close is requested, and
the browser follows the href. -/
def activateRenderedLink (r : RenderedLink) (currentUrl : String) : Activation :=
  match r.onClick with
  | some a => handleLinkClickEffect a currentUrl r.href
  | none => { defaultPrevented := false, scrolledToTop := false, closedMenu := false, urlAfter := r.href }

/-- C4: the drawer list is exactly the desktop list (both map over the single
memoized `sortedLinks`), that list is ascending in `order`, and the footer's
independently sorted rendering of the shared `NAV_LINKS` catalog coincides
with the header's — the three renderings agree as sequences. -/
theorem rendered_lists_agree (links : List NavigationLink) :
    (renderNavigation links true).drawerItems = some ((renderNavigation links true).desktopItems) ∧
    List.Sorted linkLE (sortedLinks links) ∧
    ((renderNavigation links true).desktopItems.map RenderedLink.label =
      (sortedLinks links).map NavigationLink.label) ∧
    renderFooterItems = (renderNavigation NAV_LINKS.links true).desktopItems := by
  refine ⟨rfl, List.sorted_insertionSort linkLE links, ?_, rfl⟩
  simp [renderNavigation, renderLink]

/-- C10: handed an empty `links` array, the widget still renders — the
desktop landmark holds zero items, the toggle reflects the state, and the
drawer (when open) holds zero items; `renderNavigation` is total, mirroring
that the render path contains no throwing operation. -/
theorem renderNavigation_empty (isOpen : Bool) :
    renderNavigation [] isOpen =
      { desktopItems := []
      , toggleExpanded := isOpen
      , drawerItems := if isOpen then some [] else none } := by
  cases isOpen <;> rfl

/-- C2 (code bug): the shipped markup renders the `scroll-to-top` home link
with no click handler in both the desktop list and the drawer, so activating
it neither suppresses default navigation nor scrolls the viewport — contrary
to the claim and to the repository's own `handleLinkClick` contract. -/
theorem scrollToTop_link_not_wired :
    (renderNavigation NAV_LINKS.links true).desktopItems.head? =
      some { label := "Home", href := "/", onClick := none } ∧
    ((renderNavigation NAV_LINKS.links true).drawerItems.getD []).head? =
      some { label := "Home", href := "/", onClick := none } ∧
    activateRenderedLink { label := "Home", href := "/", onClick := none } "/" =
      { defaultPrevented := false, scrolledToTop := false, closedMenu := false, urlAfter := "/" } := by
  decide

/-- C3 (code bug): the drawer renders the `placeholder` work link with no
click handler, so activating it requests no menu close (the drawer stays
open) and does not prevent the default `"#"` navigation — contrary to the
claim and to the repository's own contract that drawer-link activation
closes the menu. -/
theorem placeholder_drawer_link_does_not_close :
    ((renderNavigation NAV_LINKS.links true).drawerItems.getD []).get? 1 =
      some { label := "Work", href := "#", onClick := none } ∧
    (activateRenderedLink { label := "Work", href := "#", onClick := none } "/").closedMenu = false ∧
    (activateRenderedLink { label := "Work", href := "#", onClick := none } "/").defaultPrevented = false := by
  decide

/-- `COPYRIGHT_OWNER` from `app/lib/constants.ts`. -/
def COPYRIGHT_OWNER : String := "Yarson"

/-- The `CopyrightInfo` shape from `schemas.ts`. -/
structure CopyrightInfo where
  year : Int
  owner : String
deriving DecidableEq, Repr

/-- `getCopyrightInfo` (`constants.ts`): `new Date().getFullYear()` is the
calendar year read from the clock at call time, passed in here as
`currentYear`. -/
def getCopyrightInfo (currentYear : Int) : CopyrightInfo :=
  { year := currentYear, owner := COPYRIGHT_OWNER }

/-- Success of `CopyrightInfoSchema.parse`: the year is an integer (enforced
here by the `Int` type) and the owner string is non-empty. -/
def copyrightInfoValid (c : CopyrightInfo) : Bool :=
  strNonempty c.owner

/-- `getCopyrightText` (`constants.ts`): recomputes the info from the clock
on every call, validates it, and formats the template literal
`` `© ${info.year} ${info.owner}` ``; `none` models the parse throwing. -/
def getCopyrightText (currentYear : Int) : Option String :=
  let info := getCopyrightInfo currentYear
  if copyrightInfoValid info then
    some ("© " ++ (toString info.year ++ (" " ++ info.owner)))
  else
    none

/-- C8: for every clock year `y`, `getCopyrightText()` returns exactly
`"© {y} Yarson"`; in particular `2024` yields `"© 2024 Yarson"` and `2025`
yields `"© 2025 Yarson"` with no code change — the text is a function of the
clock alone, recomputed per call and never cached. -/
theorem getCopyrightText_correct (y : Int) :
    getCopyrightText y = some ("© " ++ (toString y ++ " Yarson")) ∧
    getCopyrightText 2024 = some "© 2024 Yarson" ∧
    getCopyrightText 2025 = some "© 2025 Yarson" := by
  refine ⟨?_, by decide, by decide⟩
  have key : getCopyrightText y = some ("© " ++ (toString y ++ (" " ++ COPYRIGHT_OWNER))) := rfl
  rw [key, show (" " ++ COPYRIGHT_OWNER : String) = " Yarson" from by decide]

/-- A tiny mutable-array heap, to state frame conditions about JS array
mutation: each cell holds the current contents of one array object. -/
structure Heap where
  arrays : List (List NavigationLink)
deriving DecidableEq, Repr

/-- Read the contents of array `r`. -/
def readArr (h : Heap) (r : Nat) : List NavigationLink :=
  (h.arrays.get? r).getD []

/-- Overwrite the contents of array `r`. -/
def writeArr (h : Heap) (r : Nat) (v : List NavigationLink) : Heap :=
  { arrays := h.arrays.set r v }

/-- Allocate a fresh array with the given contents, returning its index. -/
def allocArr (h : Heap) (contents : List NavigationLink) : Heap × Nat :=
  ({ arrays := h.arrays ++ [contents] }, h.arrays.length)

/-- The spread `[...xs]`: a fresh array holding the same elements. -/
def spreadArr (h : Heap) (r : Nat) : Heap × Nat :=
  allocArr h (readArr h r)

/-- `xs.sort(cmp)`: `Array.prototype.sort` reorders its receiver in place
and returns that same receiver. -/
def sortArrInPlace (h : Heap) (r : Nat) : Heap × Nat :=
  (writeArr h r (sortedLinks (readArr h r)), r)

/-- One `Navigation`/`Footer` render over the heap: evaluate
`[...links].sort((a, b) => a.order - b.order)` — the sort's receiver is the
fresh spread copy, never `links` itself — then map the labels out of the
sorted copy. -/
def renderLabelsOnHeap (h : Heap) (links : Nat) : Heap × List String :=
  let hc := spreadArr h links
  let hs := sortArrInPlace hc.1 hc.2
  (hs.1, (readArr hs.1 hs.2).map NavigationLink.label)

/-- A page render: the header's `Navigation` and then the footer each run
their own spread-and-sort over the same shared catalog array. -/
def pageRenderOnHeap (h : Heap) (navLinks : Nat) : Heap × (List String × List String) :=
  let hHeader := renderLabelsOnHeap h navLinks
  let hFooter := renderLabelsOnHeap hHeader.1 navLinks
  (hFooter.1, (hHeader.2, hFooter.2))

/-- C9: rendering never mutates the shared catalog — after a single
`Navigation` (or `Footer`) render, and after a full header-then-footer page
render, the backing array still holds exactly its original elements in their
original order, because each render sorts a spread copy. -/
theorem renders_preserve_catalog_array (links : List NavigationLink) :
    readArr (renderLabelsOnHeap { arrays := [links] } 0).1 0 = links ∧
    readArr (pageRenderOnHeap { arrays := [links] } 0).1 0 = links ∧
    (pageRenderOnHeap { arrays := [links] } 0).2.1 =
      (pageRenderOnHeap { arrays := [links] } 0).2.2 := by
  exact ⟨rfl, rfl, rfl⟩

/-- The widget's runtime state (`Navigation.tsx`): the committed
`isMobileMenuOpen` flag (the spec's `isOpen`), whether the current effect
instance registered the document listeners (so its cleanup would remove
them), and how many copies of `handleClickOutside` / `handleEscape` are
registered on the document. -/
structure NavState where
  isMobileMenuOpen : Bool
  effectHolds : Bool
  mousedownListeners : Nat
  keydownListeners : Nat
deriving DecidableEq, Repr

/-- The body of the `useEffect` at `Navigation.tsx` lines 16-40, run with the
committed value `b` of its `[isMobileMenuOpen]` dependency: when `b` is
false it returns early and registers nothing (and yields no cleanup); when
`b` is true it adds the `mousedown` and `keydown` document listeners and
yields a cleanup. -/
def effectBody (b : Bool) (s : NavState) : NavState :=
  if b then
    { s with effectHolds := true
           , mousedownListeners := s.mousedownListeners + 1
           , keydownListeners := s.keydownListeners + 1 }
  else
    { s with effectHolds := false }

/-- Running the pending effect cleanup, if the last effect run produced one:
it removes exactly the two listeners that run added. -/
def effectCleanup (s : NavState) : NavState :=
  if s.effectHolds then
    { s with effectHolds := false
           , mousedownListeners := s.mousedownListeners - 1
           , keydownListeners := s.keydownListeners - 1 }
  else s

/-- A React commit of a new `isMobileMenuOpen` value: the state takes the
value; the effect, keyed on `[isMobileMenuOpen]`, re-runs (previous cleanup
first, then the body) exactly when the dependency changed. -/
def commit (s : NavState) (b : Bool) : NavState :=
  if b = s.isMobileMenuOpen then { s with isMobileMenuOpen := b }
  else effectBody b (effectCleanup { s with isMobileMenuOpen := b })

/-- Mounting the widget: `useState(false)` and the first effect run (which
returns early, registering nothing). -/
def mountNavigation : NavState :=
  effectBody false
    { isMobileMenuOpen := false, effectHolds := false
    , mousedownListeners := 0, keydownListeners := 0 }

/-- Unmounting the widget: React runs the last pending cleanup. -/
def unmountNavigation (s : NavState) : NavState :=
  effectCleanup s

/-- `closeMobileMenu` (`Navigation.tsx` line 14): `setIsMobileMenuOpen(false)`
followed by the commit it triggers. -/
def closeMobileMenu (s : NavState) : NavState :=
  commit s false

/-- Where a document `mousedown` lands, classified by the two containment
checks of `handleClickOutside`: inside the drawer panel (`menuRef`) and/or
inside the toggle button (`buttonRef`).  Whenever the listener is registered
the drawer is mounted, so both refs are non-null and the containment checks
decide the branch. -/
structure PressTarget where
  inMenu : Bool
  inButton : Bool
deriving DecidableEq, Repr

/-- `handleClickOutside` (`Navigation.tsx` lines 19-25): close exactly when
the target is inside neither the drawer panel nor the toggle button. -/
def handleClickOutside (t : PressTarget) (s : NavState) : NavState :=
  if !t.inMenu && !t.inButton then closeMobileMenu s else s

/-- `handleEscape` (`Navigation.tsx` lines 27-31): close when the key is
`"Escape"`, with no condition on where focus is. -/
def handleEscape (key : String) (s : NavState) : NavState :=
  if key = "Escape" then closeMobileMenu s else s

/-- Document-level events relevant to the widget: a `mousedown` somewhere, a
`keydown` or `keyup` of some key, and a click on the hamburger toggle. -/
inductive DomEvent where
  | mousedown (t : PressTarget)
  | keydown (key : String)
  | keyup (key : String)
  | toggleClick
deriving DecidableEq, Repr

/-- Document dispatch: each handler runs only while it is registered.  The
source registers `handleClickOutside` for `mousedown` and `handleEscape` for
`keydown`; it never registers any `keyup` listener, so `keyup` events reach
no handler.  The toggle's own `onClick` is
`setIsMobileMenuOpen(!isMobileMenuOpen)` (`Navigation.tsx` line 63). -/
def dispatch (s : NavState) (e : DomEvent) : NavState :=
  match e with
  | .mousedown t => if 0 < s.mousedownListeners then handleClickOutside t s else s
  | .keydown k => if 0 < s.keydownListeners then handleEscape k s else s
  | .keyup _ => s
  | .toggleClick => commit s (!s.isMobileMenuOpen)

/-- The widget's state after mounting and processing a sequence of events. -/
def runNavigation (evs : List DomEvent) : NavState :=
  evs.foldl dispatch mountNavigation

/-- How many copies of each listener the widget should hold for a given
`isMobileMenuOpen` value: one while open, none while closed. -/
def listenerCountFor (b : Bool) : Nat :=
  if b then 1 else 0

/-- The listener-accounting invariant: the pending cleanup exists exactly
while the menu is open, and each listener is registered exactly once while
open and not at all while closed. -/
def GoodState (s : NavState) : Prop :=
  s.effectHolds = s.isMobileMenuOpen ∧
  s.mousedownListeners = listenerCountFor s.isMobileMenuOpen ∧
  s.keydownListeners = listenerCountFor s.isMobileMenuOpen

theorem goodState_mount : GoodState mountNavigation :=
  ⟨rfl, rfl, rfl⟩

theorem goodState_commit (s : NavState) (b : Bool) (h : GoodState s) :
    GoodState (commit s b) := by
  rcases s with ⟨o, hd, m, k⟩
  obtain ⟨h1, h2, h3⟩ := h
  dsimp only at h1 h2 h3
  subst h1; subst h2; subst h3
  cases b <;> cases hd <;>
    simp [commit, effectBody, effectCleanup, GoodState, listenerCountFor]

theorem goodState_dispatch (s : NavState) (e : DomEvent) (h : GoodState s) :
    GoodState (dispatch s e) := by
  cases e with
  | mousedown t =>
    dsimp only [dispatch]
    split
    · unfold handleClickOutside
      split
      · exact goodState_commit s false h
      · exact h
    · exact h
  | keydown k =>
    dsimp only [dispatch]
    split
    · unfold handleEscape
      split
      · exact goodState_commit s false h
      · exact h
    · exact h
  | keyup k => exact h
  | toggleClick => exact goodState_commit s _ h

theorem goodState_run (evs : List DomEvent) : GoodState (runNavigation evs) := by
  suffices hgen : ∀ s : NavState, GoodState s → GoodState (evs.foldl dispatch s) from
    hgen mountNavigation goodState_mount
  induction evs with
  | nil => intro s h; exact h
  | cons e rest ih => intro s h; exact ih (dispatch s e) (goodState_dispatch s e h)

theorem unmount_releases (s : NavState) (h : GoodState s) :
    (unmountNavigation s).mousedownListeners = 0 ∧
      (unmountNavigation s).keydownListeners = 0 := by
  obtain ⟨h1, h2, h3⟩ := h
  unfold unmountNavigation effectCleanup
  rw [h1]
  cases ho : s.isMobileMenuOpen <;> simp [ho, h2, h3, listenerCountFor]

theorem commit_false_isOpen (s : NavState) :
    (commit s false).isMobileMenuOpen = false := by
  rcases s with ⟨o, hd, m, k⟩
  cases o <;> cases hd <;> simp [commit, effectBody, effectCleanup]

/-- C5: in every reachable state the document `mousedown` and `keydown`
listeners are registered exactly once while `isMobileMenuOpen` is true and
not at all while it is false — so they are added on the transition to open
and removed on every transition back to closed — and unmounting from any
reachable state removes whatever is held: no listener ever leaks past close
or past unmount. -/
theorem listeners_held_exactly_while_open (evs : List DomEvent) :
    (runNavigation evs).mousedownListeners =
        listenerCountFor (runNavigation evs).isMobileMenuOpen ∧
    (runNavigation evs).keydownListeners =
        listenerCountFor (runNavigation evs).isMobileMenuOpen ∧
    (unmountNavigation (runNavigation evs)).mousedownListeners = 0 ∧
    (unmountNavigation (runNavigation evs)).keydownListeners = 0 := by
  obtain ⟨h1, h2, h3⟩ := goodState_run evs
  obtain ⟨u1, u2⟩ := unmount_releases (runNavigation evs) (goodState_run evs)
  exact ⟨h2, h3, u1, u2⟩

/-- C6 counterexample: open the drawer with the toggle; a document `keyup`
of Escape then leaves `isMobileMenuOpen` true — the component registers only
a `keydown` listener, so the claimed key-up dismissal does not happen. -/
theorem escape_keyup_leaves_menu_open :
    (runNavigation [DomEvent.toggleClick]).isMobileMenuOpen = true ∧
    (runNavigation [DomEvent.toggleClick, DomEvent.keyup "Escape"]).isMobileMenuOpen = true := by
  decide

/-- C6 (amended): while `isMobileMenuOpen` is true in any reachable state,
an Escape key-down event anywhere in the document sets it to false,
regardless of where focus is located. -/
theorem escape_keydown_closes (evs : List DomEvent)
    (h : (runNavigation evs).isMobileMenuOpen = true) :
    (dispatch (runNavigation evs) (DomEvent.keydown "Escape")).isMobileMenuOpen = false := by
  obtain ⟨h1, h2, h3⟩ := goodState_run evs
  dsimp only [dispatch]
  rw [h3, h]
  simp [listenerCountFor, handleEscape, closeMobileMenu, commit_false_isOpen]

theorem escape_keydown_closes_witness :
    (runNavigation [DomEvent.toggleClick]).isMobileMenuOpen = true ∧
    (dispatch (runNavigation [DomEvent.toggleClick])
        (DomEvent.keydown "Escape")).isMobileMenuOpen = false :=
  ⟨by decide, escape_keydown_closes [DomEvent.toggleClick] (by decide)⟩

/-- C7: while `isMobileMenuOpen` is true in any reachable state, a document
`mousedown` (the press event the widget listens for) closes the menu exactly
when its target lies outside both the drawer panel and the toggle button; a
press inside either leaves the menu open on this path. -/
theorem mousedown_outside_closes (evs : List DomEvent) (t : PressTarget)
    (h : (runNavigation evs).isMobileMenuOpen = true) :
    (dispatch (runNavigation evs) (DomEvent.mousedown t)).isMobileMenuOpen =
      (t.inMenu || t.inButton) := by
  obtain ⟨h1, h2, h3⟩ := goodState_run evs
  dsimp only [dispatch]
  rw [h2, h]
  cases hm : t.inMenu <;> cases hb : t.inButton <;>
    simp [listenerCountFor, handleClickOutside, hm, hb, closeMobileMenu,
      commit_false_isOpen, h]

theorem mousedown_outside_closes_witness :
    (runNavigation [DomEvent.toggleClick]).isMobileMenuOpen = true ∧
    (dispatch (runNavigation [DomEvent.toggleClick])
        (DomEvent.mousedown { inMenu := false, inButton := false })).isMobileMenuOpen =
      (false || false) :=
  ⟨by decide,
    mousedown_outside_closes [DomEvent.toggleClick]
      { inMenu := false, inButton := false } (by decide)⟩

end Yarson
